import Mathlib

/-
Shallow embedding of the pizzaz MCP server of this repository.

Sources embedded:
- pizzaz_server_node/src/server.ts. The file holds two near-identical copies of
  the server; they agree on everything modelled here except that the second
  copy places the widget HTML inline in the CallTool meta entry "openai/widget"
  instead of referencing it by URI, and uses mimeType "text/html" instead of
  "text/html+skybridge". Namespace Pizzaz follows the first copy.
- the unnamed variant file (part_001), a third near-duplicate of the same
  server with behavioural differences (no structuredContent in the CallTool
  result, suffix matching in ReadResource, no transport.onclose handler).
  Namespace Part1 follows it.

The widget HTML is read from disk at startup (the content store, outside the
repository), so every definition is parameterised by a content store
assets : String -> String mapping the identifier passed to the read call to
the returned markup.
-/

/-- A JSON value appearing as a field of a CallTool arguments object. The zod
validator z.string() accepts exactly JSON strings, and the declared JSON
schema constrains only key sets and stringness of pizzaTopping, so all
non-string values are represented by one constructor. -/
inductive ArgVal where
  | str (s : String)
  | nonString
deriving DecidableEq, Repr

/-- A JSON object of tool-call arguments, as an association list of fields. -/
abbrev Args := List (String × ArgVal)

/-- The first binding of a key in an arguments object. -/
def argLookup (args : Args) (k : String) : Option ArgVal :=
  (args.find? (fun kv => kv.1 == k)).map (fun kv => kv.2)

/-- Semantics of toolInputParser.parse, that is z.object with the single field
pizzaTopping : z.string(): the parse succeeds iff the field pizzaTopping is
present and is a string. zod object schemas strip unrecognized keys by default
rather than rejecting them, so additional fields never cause a parse failure.
parse throws a ZodError on failure, modelled as none. Both server.ts and the
part_001 variant use this same parser. -/
def toolInputParse (args : Args) : Option String :=
  match argLookup args "pizzaTopping" with
  | some (ArgVal.str s) => some s
  | _ => none

/-- A value of a response _meta entry: strings, booleans, and the
"openai/widget" object, which either references the widget markup by URI or
embeds it inline. -/
inductive MetaVal where
  | str (s : String)
  | bool (b : Bool)
  | widgetRefUri (uri : String)
  | widgetInlineHtml (html : String)
deriving DecidableEq, Repr

/-- One entry of a content array, such as the literal
type "text", text w.responseText. -/
structure ContentItem where
  type : String
  text : String
deriving DecidableEq, Repr

/-- The success result of a CallTool handler. A JavaScript object literal that
has no structuredContent key is modelled with structuredContent = none. -/
structure CallToolResult where
  content : List ContentItem
  structuredContent : Option Args
  meta : List (String × MetaVal)
deriving DecidableEq, Repr

/-- One element of the contents array returned by a ReadResource handler. -/
structure ResourceContents where
  uri : String
  mimeType : String
  text : String
  meta : List (String × MetaVal)
deriving DecidableEq, Repr

/-- An exception thrown by a request handler. The handlers of both variants
throw plain Errors for unknown tools and resources, and
toolInputParser.parse throws a ZodError on schema violation. methodNotFound
models the MCP SDK rejection of a method with no registered handler. -/
inductive HandlerError where
  | unknownTool (name : String)
  | unknownResource (uri : String)
  | validation
  | methodNotFound
deriving DecidableEq, Repr

/-- A decoded MCP request body, one constructor per method kind handled by the
servers. -/
inductive McpRequest where
  | listTools
  | listResources
  | listResourceTemplates
  | readResource (uri : String)
  | callTool (name : String) (arguments : Option Args)
deriving DecidableEq, Repr

/-- A session record; in the source it holds the per-session protocol Server
instance and the SSEServerTransport. Neither carries claim-relevant state
beyond its presence in the session map, so it is a unit marker here. -/
inductive SessionRecord where
  | mk
deriving DecidableEq, Repr

/-- The sessions map, a string-keyed map modelled extensionally. -/
abbrev Registry := String → Option SessionRecord

/-- Semantics of sessions.set at the session id (JavaScript Map set). -/
def openSession (r : Registry) (sid : String) : Registry :=
  fun k => if k = sid then some SessionRecord.mk else r k

/-- Semantics of sessions.delete at the session id (JavaScript Map delete). -/
def closeSession (r : Registry) (sid : String) : Registry :=
  fun k => if k = sid then none else r k

/-- Boolean suffix test on strings, the semantics of
uri.endsWith(w.htmlFile) used by the part_001 ReadResource handler. -/
def strEndsWith (s suffix : String) : Bool :=
  suffix.data.isSuffixOf s.data

/-- The HTTP-level outcome of a pull (POST) request, parameterised by the
dispatch outcome type of the variant. The serverError500 constructor is the
catch branch writing 500 when transport.handlePostMessage throws while
decoding the body; bodies arrive already decoded in this embedding, so the
model never produces it. -/
inductive HttpResult (α : Type) where
  | badRequest400 (msg : String)
  | notFound404 (msg : String)
  | serverError500 (msg : String)
  | dispatched (o : α)
deriving DecidableEq, Repr

namespace Pizzaz

/-- A widget record of server.ts. -/
structure Widget where
  id : String
  title : String
  templateUri : String
  invoking : String
  invoked : String
  html : String
  responseText : String
deriving DecidableEq, Repr

/-- The widgets array of server.ts; readWidgetHtml(componentName) is the
content-store read, modelled as assets componentName. -/
def widgets (assets : String → String) : List Widget :=
  [ { id := "pizza-map", title := "Show Pizza Map",
      templateUri := "ui://widget/pizza-map.html",
      invoking := "Hand-tossing a map", invoked := "Served a fresh map",
      html := assets "pizzaz", responseText := "Rendered a pizza map!" },
    { id := "pizza-carousel", title := "Show Pizza Carousel",
      templateUri := "ui://widget/pizza-carousel.html",
      invoking := "Carousel some spots", invoked := "Served a fresh carousel",
      html := assets "pizzaz-carousel", responseText := "Rendered a pizza carousel!" },
    { id := "pizza-albums", title := "Show Pizza Album",
      templateUri := "ui://widget/pizza-albums.html",
      invoking := "Hand-tossing an album", invoked := "Served a fresh album",
      html := assets "pizzaz-albums", responseText := "Rendered a pizza album!" },
    { id := "pizza-list", title := "Show Pizza List",
      templateUri := "ui://widget/pizza-list.html",
      invoking := "Hand-tossing a list", invoked := "Served a fresh list",
      html := assets "pizzaz-list", responseText := "Rendered a pizza list!" } ]

/-- Lookup in the widgetsById map. The map is filled by iterating over the
widgets array, so since ids are distinct the entry for an id is the first
matching array element. -/
def widgetsById (assets : String → String) (name : String) : Option Widget :=
  (widgets assets).find? (fun w => w.id == name)

/-- Lookup in the widgetsByUri map, keyed by templateUri. -/
def widgetsByUri (assets : String → String) (uri : String) : Option Widget :=
  (widgets assets).find? (fun w => w.templateUri == uri)

/-- The widgetMeta object attached to tool and resource definitions and to
the handler responses. -/
def widgetMeta (w : Widget) : List (String × MetaVal) :=
  [ ("openai/outputTemplate", MetaVal.str w.templateUri),
    ("openai/toolInvocation/invoking", MetaVal.str w.invoking),
    ("openai/toolInvocation/invoked", MetaVal.str w.invoked),
    ("openai/widgetAccessible", MetaVal.bool true),
    ("openai/resultCanProduceWidget", MetaVal.bool true) ]

/-- The declared JSON input schema of every tool, as the toolInputSchema
literal: type object, single property pizzaTopping of type string, required
pizzaTopping, additionalProperties false. -/
structure InputSchemaDef where
  type : String
  propertyNames : List String
  required : List String
  additionalProperties : Bool
deriving DecidableEq, Repr

/-- The toolInputSchema literal of server.ts. -/
def toolInputSchemaDef : InputSchemaDef :=
  { type := "object", propertyNames := ["pizzaTopping"],
    required := ["pizzaTopping"], additionalProperties := false }

/-- Acceptance by the declared JSON schema toolInputSchema: an object is valid
iff every key is the declared property pizzaTopping (additionalProperties is
false), the required key pizzaTopping is present, and its value is a string. -/
def toolInputSchemaAccepts (args : Args) : Bool :=
  args.all (fun kv => kv.1 == "pizzaTopping") &&
    (match argLookup args "pizzaTopping" with
     | some (ArgVal.str _) => true
     | _ => false)

/-- A tool definition as listed by ListTools. The source also attaches the
constant hint object destructiveHint false, openWorldHint false,
readOnlyHint true, omitted here as no claim touches it. -/
structure ToolDef where
  name : String
  description : String
  inputSchema : InputSchemaDef
  title : String
  meta : List (String × MetaVal)
deriving DecidableEq, Repr

/-- The tools array of server.ts. -/
def tools (assets : String → String) : List ToolDef :=
  (widgets assets).map (fun w =>
    { name := w.id, description := w.title, inputSchema := toolInputSchemaDef,
      title := w.title, meta := widgetMeta w })

/-- A resource definition as listed by ListResources. -/
structure ResourceDef where
  uri : String
  name : String
  description : String
  mimeType : String
  meta : List (String × MetaVal)
deriving DecidableEq, Repr

/-- The resources array of server.ts. -/
def resources (assets : String → String) : List ResourceDef :=
  (widgets assets).map (fun w =>
    { uri := w.templateUri, name := w.title,
      description := w.title ++ " widget markup",
      mimeType := "text/html+skybridge", meta := widgetMeta w })

/-- A resource template definition as listed by ListResourceTemplates. -/
structure ResourceTemplateDef where
  uriTemplate : String
  name : String
  description : String
  mimeType : String
  meta : List (String × MetaVal)
deriving DecidableEq, Repr

/-- The resourceTemplates array of server.ts. -/
def resourceTemplates (assets : String → String) : List ResourceTemplateDef :=
  (widgets assets).map (fun w =>
    { uriTemplate := w.templateUri, name := w.title,
      description := w.title ++ " widget markup",
      mimeType := "text/html+skybridge", meta := widgetMeta w })

/-- The CallTool request handler body: look up the widget by tool name
(throwing for an unknown tool), validate req.params.arguments with a default
of the empty object through toolInputParser.parse (throwing a ZodError on
failure), and return the success result. The first copy of server.ts puts a
URI reference in the extra "openai/widget" meta entry; the second copy puts
the widget HTML inline there and is otherwise identical. -/
def callToolHandler (assets : String → String) (name : String)
    (arguments : Option Args) : Except HandlerError CallToolResult :=
  match widgetsById assets name with
  | none => Except.error (HandlerError.unknownTool name)
  | some w =>
    match toolInputParse (arguments.getD []) with
    | none => Except.error HandlerError.validation
    | some topping =>
      Except.ok
        { content := [{ type := "text", text := w.responseText }],
          structuredContent := some [("pizzaTopping", ArgVal.str topping)],
          meta := widgetMeta w ++ [("openai/widget", MetaVal.widgetRefUri w.templateUri)] }

/-- The ReadResource request handler body: exact lookup of req.params.uri in
widgetsByUri, throwing for an unknown resource, else the contents array. -/
def readResourceHandler (assets : String → String) (uri : String) :
    Except HandlerError (List ResourceContents) :=
  match widgetsByUri assets uri with
  | none => Except.error (HandlerError.unknownResource uri)
  | some w =>
    Except.ok
      [{ uri := w.templateUri, mimeType := "text/html+skybridge",
         text := w.html, meta := widgetMeta w }]

/-- A successful method result. -/
inductive DispatchPayload where
  | toolResult (r : CallToolResult)
  | resourceResult (c : List ResourceContents)
  | toolsList (ts : List ToolDef)
  | resourcesList (rs : List ResourceDef)
  | resourceTemplatesList (rs : List ResourceTemplateDef)
deriving DecidableEq, Repr

/-- Running the registered handler of a request; handler exceptions surface
as Except.error. -/
def runRequest (assets : String → String) : McpRequest → Except HandlerError DispatchPayload
  | McpRequest.listTools => Except.ok (DispatchPayload.toolsList (tools assets))
  | McpRequest.listResources => Except.ok (DispatchPayload.resourcesList (resources assets))
  | McpRequest.listResourceTemplates =>
      Except.ok (DispatchPayload.resourceTemplatesList (resourceTemplates assets))
  | McpRequest.readResource uri =>
      (readResourceHandler assets uri).map DispatchPayload.resourceResult
  | McpRequest.callTool name args =>
      (callToolHandler assets name args).map DispatchPayload.toolResult

/-- The outcome delivered for one dispatched request: either the method
result or a structured error envelope. -/
inductive DispatchOutcome where
  | result (p : DispatchPayload)
  | errorEnvelope (e : HandlerError)
deriving DecidableEq, Repr

/-- The protocol dispatcher boundary (the MCP SDK request dispatch): a
handler exception is caught there and converted into a structured JSON-RPC
error response; it never escapes. -/
def dispatch (assets : String → String) (body : McpRequest) : DispatchOutcome :=
  match runRequest assets body with
  | Except.ok p => DispatchOutcome.result p
  | Except.error e => DispatchOutcome.errorEnvelope e

/-- handlePostMessage of server.ts: reject with 400 when the sessionId query
parameter is absent, with 404 when the id is not in the sessions map, and
otherwise hand the body to the session transport, whose protocol server
dispatches it. No branch writes to the sessions map. -/
def handlePostMessage (assets : String → String) (sessions : Registry)
    (sessionId : Option String) (body : McpRequest) :
    HttpResult DispatchOutcome × Registry :=
  match sessionId with
  | none => (HttpResult.badRequest400 "Missing sessionId", sessions)
  | some sid =>
    match sessions sid with
    | none => (HttpResult.notFound404 "Unknown session", sessions)
    | some _ => (HttpResult.dispatched (dispatch assets body), sessions)

/-- An observable event on the session registry of server.ts. -/
inductive Event where
  | openChannel (sid : String)
  | closeChannel (sid : String)
  | post (sid : String) (body : McpRequest)
deriving DecidableEq, Repr

/-- Effect of one event on the sessions map: opening a push channel runs
sessions.set, the transport.onclose callback runs sessions.delete
synchronously when the push channel closes, and a pull request leaves the
map as handlePostMessage leaves it. -/
def applyEvent (assets : String → String) (r : Registry) : Event → Registry
  | Event.openChannel sid => openSession r sid
  | Event.closeChannel sid => closeSession r sid
  | Event.post sid body => (handlePostMessage assets r (some sid) body).2

/-- Effect of a sequence of events on the sessions map. -/
def applyEvents (assets : String → String) (r : Registry) : List Event → Registry
  | [] => r
  | e :: es => applyEvents assets (applyEvent assets r e) es

/-- Period of the keep-alive setInterval of handleSseRequest: 15000 ms,
that is 15 time units of one second. -/
def heartbeatPeriod : Nat := 15

/-- Time at which await server.connect(transport) resolves, relative to the
opening of the push channel. Server.connect awaits SSEServerTransport.start,
which writes the SSE headers and the endpoint handshake event and then
returns immediately; it does not wait for the channel to close. The
try/finally around the await therefore runs clearInterval at time 0. -/
def connectResolveTime : Nat := 0

/-- Times at which the setInterval callback fires: positive multiples of the
period, while the interval is not yet cleared (stopTime) and the channel is
still open (openDuration). -/
def heartbeatFireTimes (stopTime openDuration : Nat) : List Nat :=
  (List.range (openDuration + 1)).filter
    (fun t => (t % heartbeatPeriod == 0) && (t != 0) && Nat.ble t stopTime)

/-- A frame written to the push channel. -/
inductive Frame where
  | endpointEvent (sessionId : String)
  | heartbeat (t : Nat)
deriving DecidableEq, Repr

/-- The timeline of frames handleSseRequest writes on a push channel held
open for openDuration time units: the endpoint handshake frame at time 0
(written by SSEServerTransport.start during server.connect), then the
heartbeat frames the interval manages to emit before clearInterval runs,
which is when connect resolves. -/
def sseFrames (sessionId : String) (openDuration : Nat) : List (Nat × Frame) :=
  (0, Frame.endpointEvent sessionId) ::
    (heartbeatFireTimes (min connectResolveTime openDuration) openDuration).map
      (fun t => (t, Frame.heartbeat t))

/-- The heartbeat frames among a frame timeline. -/
def heartbeatFrames (frames : List (Nat × Frame)) : List (Nat × Frame) :=
  frames.filter (fun p =>
    match p.2 with
    | Frame.heartbeat _ => true
    | _ => false)

end Pizzaz

namespace Part1

/-- A widget record of the part_001 variant. -/
structure Widget where
  id : String
  title : String
  htmlFile : String
  html : String
deriving DecidableEq, Repr

/-- The widgets array of the part_001 variant; readHtml(file) is the
content-store read keyed by file name, modelled as assets file. -/
def widgets (assets : String → String) : List Widget :=
  [ { id := "pizza-map", title := "Pizza Map",
      htmlFile := "pizzaz.html", html := assets "pizzaz.html" },
    { id := "pizza-carousel", title := "Pizza Carousel",
      htmlFile := "pizzaz-carousel.html", html := assets "pizzaz-carousel.html" },
    { id := "pizza-albums", title := "Pizza Albums",
      htmlFile := "pizzaz-albums.html", html := assets "pizzaz-albums.html" },
    { id := "pizza-list", title := "Pizza List",
      htmlFile := "pizzaz-list.html", html := assets "pizzaz-list.html" } ]

/-- Lookup in the widgetsById map of the part_001 variant. -/
def widgetsById (assets : String → String) (name : String) : Option Widget :=
  (widgets assets).find? (fun w => w.id == name)

/-- The makeMeta object of the part_001 variant. -/
def makeMeta (w : Widget) : List (String × MetaVal) :=
  [ ("openai/outputTemplate", MetaVal.str ("ui://widget/" ++ w.htmlFile)),
    ("openai/widget", MetaVal.widgetRefUri ("ui://widget/" ++ w.htmlFile)),
    ("openai/widgetAccessible", MetaVal.bool true),
    ("openai/resultCanProduceWidget", MetaVal.bool true) ]

/-- A resource definition as listed by the part_001 ListResources handler. -/
structure ResourceDef where
  uri : String
  name : String
  mimeType : String
  description : String
  meta : List (String × MetaVal)
deriving DecidableEq, Repr

/-- The resources list the part_001 ListResources handler returns. -/
def listResources (assets : String → String) : List ResourceDef :=
  (widgets assets).map (fun w =>
    { uri := "ui://widget/" ++ w.htmlFile, name := w.title,
      mimeType := "text/html", description := w.title ++ " widget",
      meta := makeMeta w })

/-- The registered resource URIs of the part_001 variant. -/
def resourceUris (assets : String → String) : List String :=
  (listResources assets).map (fun r => r.uri)

/-- A tool definition as listed by the part_001 ListTools handler. Its
inputSchema literal declares type object, property pizzaTopping of type
string, required pizzaTopping, and no additionalProperties clause. -/
structure ToolDef where
  name : String
  title : String
  description : String
  meta : List (String × MetaVal)
deriving DecidableEq, Repr

/-- The tools list the part_001 ListTools handler returns. -/
def listTools (assets : String → String) : List ToolDef :=
  (widgets assets).map (fun w =>
    { name := w.id, title := w.title, description := "Render " ++ w.title,
      meta := makeMeta w })

/-- The part_001 CallTool handler body: look up the widget by name (throwing
for an unknown tool), validate req.params.arguments with a default of the
empty object through inputSchema.parse, and return a result whose content
holds a text item mentioning the topping and an inline HTML item; the result
object literal has no structuredContent key. -/
def callToolHandler (assets : String → String) (name : String)
    (arguments : Option Args) : Except HandlerError CallToolResult :=
  match widgetsById assets name with
  | none => Except.error (HandlerError.unknownTool name)
  | some w =>
    match toolInputParse (arguments.getD []) with
    | none => Except.error HandlerError.validation
    | some topping =>
      Except.ok
        { content :=
            [ { type := "text",
                text := "Rendered " ++ w.title ++ " with topping " ++ topping },
              { type := "text/html", text := w.html } ],
          structuredContent := none,
          meta := makeMeta w }

/-- The part_001 ReadResource handler body: find the first widget whose html
file name is a suffix of req.params.uri (uri.endsWith(w.htmlFile)), throwing
when none matches. -/
def readResourceHandler (assets : String → String) (uri : String) :
    Except HandlerError (List ResourceContents) :=
  match (widgets assets).find? (fun w => strEndsWith uri w.htmlFile) with
  | none => Except.error (HandlerError.unknownResource uri)
  | some w =>
    Except.ok
      [{ uri := "ui://widget/" ++ w.htmlFile, mimeType := "text/html",
         text := w.html, meta := makeMeta w }]

/-- A successful method result of the part_001 variant. -/
inductive DispatchPayload where
  | toolResult (r : CallToolResult)
  | resourceResult (c : List ResourceContents)
  | toolsList (ts : List ToolDef)
  | resourcesList (rs : List ResourceDef)
deriving DecidableEq, Repr

/-- Running the registered part_001 handler of a request. The variant
registers no ListResourceTemplates handler, so the SDK rejects that method. -/
def runRequest (assets : String → String) : McpRequest → Except HandlerError DispatchPayload
  | McpRequest.listTools => Except.ok (DispatchPayload.toolsList (listTools assets))
  | McpRequest.listResources => Except.ok (DispatchPayload.resourcesList (listResources assets))
  | McpRequest.listResourceTemplates => Except.error HandlerError.methodNotFound
  | McpRequest.readResource uri =>
      (readResourceHandler assets uri).map DispatchPayload.resourceResult
  | McpRequest.callTool name args =>
      (callToolHandler assets name args).map DispatchPayload.toolResult

/-- The outcome delivered for one dispatched part_001 request. -/
inductive DispatchOutcome where
  | result (p : DispatchPayload)
  | errorEnvelope (e : HandlerError)
deriving DecidableEq, Repr

/-- The protocol dispatcher boundary of the part_001 variant (the same MCP
SDK request dispatch). -/
def dispatch (assets : String → String) (body : McpRequest) : DispatchOutcome :=
  match runRequest assets body with
  | Except.ok p => DispatchOutcome.result p
  | Except.error e => DispatchOutcome.errorEnvelope e

/-- handlePost of the part_001 variant: 400 when the sessionId query
parameter is absent, 404 when the id is not in the sessions map, otherwise
dispatch. No branch writes to the sessions map. -/
def handlePostMessage (assets : String → String) (sessions : Registry)
    (sessionId : Option String) (body : McpRequest) :
    HttpResult DispatchOutcome × Registry :=
  match sessionId with
  | none => (HttpResult.badRequest400 "Missing sessionId", sessions)
  | some sid =>
    match sessions sid with
    | none => (HttpResult.notFound404 "Session not found", sessions)
    | some _ => (HttpResult.dispatched (dispatch assets body), sessions)

/-- Effect of one event on the part_001 sessions map. The part_001 handleSse
sets the session into the map but assigns no transport.onclose callback, so
closing the push channel runs nothing and the map keeps the entry. -/
def applyEvent (assets : String → String) (r : Registry) : Pizzaz.Event → Registry
  | Pizzaz.Event.openChannel sid => openSession r sid
  | Pizzaz.Event.closeChannel _ => r
  | Pizzaz.Event.post sid body => (handlePostMessage assets r (some sid) body).2

end Part1

/-- A URI is a registered resource URI of server.ts iff some widget lists it
as its templateUri (the key set of the widgetsByUri map). -/
def Pizzaz.isRegisteredResource (assets : String → String) (uri : String) : Bool :=
  (Pizzaz.widgets assets).any (fun w => w.templateUri == uri)

/-- A concrete content store for witnesses: every read returns the empty
markup string. -/
def assets0 : String → String := fun _ => ""

/-- An empty sessions map for witnesses. -/
def reg0 : Registry := fun _ => none

/-- A sessions map holding the single session id sessA, for witnesses. -/
def reg1 : Registry := fun k => if k = "sessA" then some SessionRecord.mk else none

/-- The pizza-map widget record of server.ts under the witness content
store. -/
def wmap0 : Pizzaz.Widget :=
  { id := "pizza-map", title := "Show Pizza Map",
    templateUri := "ui://widget/pizza-map.html",
    invoking := "Hand-tossing a map", invoked := "Served a fresh map",
    html := "", responseText := "Rendered a pizza map!" }

/-- The pizza-map widget record of the part_001 variant under the witness
content store. -/
def vmap0 : Part1.Widget :=
  { id := "pizza-map", title := "Pizza Map", htmlFile := "pizzaz.html", html := "" }

/-- handlePostMessage of server.ts never writes to the sessions map: every
branch returns it unchanged. -/
theorem Pizzaz.handlePostMessage_registry (assets : String → String) (r : Registry)
    (sessionId : Option String) (body : McpRequest) :
    (Pizzaz.handlePostMessage assets r sessionId body).2 = r := by
  cases sessionId with
  | none => rfl
  | some sid => cases h : r sid <;> simp [Pizzaz.handlePostMessage, h]

/-- A session id absent from the sessions map stays absent along any event
sequence that never opens a push channel with that exact id. -/
theorem Pizzaz.applyEvents_lookup_none (assets : String → String) (sid : String) :
    ∀ (evs : List Pizzaz.Event) (r : Registry), r sid = none →
      Pizzaz.Event.openChannel sid ∉ evs →
      Pizzaz.applyEvents assets r evs sid = none := by
  intro evs
  induction evs with
  | nil => intro r h _; exact h
  | cons e es ih =>
    intro r h hne
    have hne2 : Pizzaz.Event.openChannel sid ∉ es := by
      intro hq; exact hne (List.mem_cons_of_mem _ hq)
    have step : Pizzaz.applyEvent assets r e sid = none := by
      cases e with
      | openChannel o =>
        have ho : sid ≠ o := by
          intro hq
          subst hq
          exact hne (List.mem_cons_self _ _)
        simp [Pizzaz.applyEvent, openSession, ho, h]
      | closeChannel o =>
        by_cases hs : sid = o
        · simp [Pizzaz.applyEvent, closeSession, hs]
        · simp [Pizzaz.applyEvent, closeSession, hs, h]
      | post s b =>
        simp [Pizzaz.applyEvent, Pizzaz.handlePostMessage_registry, h]
    exact ih (Pizzaz.applyEvent assets r e) step hne2

/-- Membership in the widgets array determines the widgetsById entry, since
widget ids are pairwise distinct. -/
theorem Pizzaz.widgetsById_of_mem (assets : String → String) (w : Pizzaz.Widget)
    (hw : w ∈ Pizzaz.widgets assets) : Pizzaz.widgetsById assets w.id = some w := by
  simp only [Pizzaz.widgets, List.mem_cons, List.not_mem_nil, or_false] at hw
  rcases hw with h | h | h | h <;> subst h <;> rfl

/-- Membership in the widgets array determines the widgetsByUri entry, since
template URIs are pairwise distinct. -/
theorem Pizzaz.widgetsByUri_of_mem (assets : String → String) (w : Pizzaz.Widget)
    (hw : w ∈ Pizzaz.widgets assets) :
    Pizzaz.widgetsByUri assets w.templateUri = some w := by
  simp only [Pizzaz.widgets, List.mem_cons, List.not_mem_nil, or_false] at hw
  rcases hw with h | h | h | h <;> subst h <;> rfl

/-- Membership in the part_001 widgets array determines its widgetsById
entry. -/
theorem Part1.byId_of_mem (assets : String → String) (v : Part1.Widget)
    (hv : v ∈ Part1.widgets assets) : Part1.widgetsById assets v.id = some v := by
  simp only [Part1.widgets, List.mem_cons, List.not_mem_nil, or_false] at hv
  rcases hv with h | h | h | h <;> subst h <;> rfl

/-- A URI that is not registered has no widgetsByUri entry. -/
theorem Pizzaz.widgetsByUri_eq_none (assets : String → String) (uri : String)
    (h : Pizzaz.isRegisteredResource assets uri = false) :
    Pizzaz.widgetsByUri assets uri = none := by
  rw [Pizzaz.widgetsByUri, List.find?_eq_none]
  intro w hw hbeq
  have hany : (Pizzaz.widgets assets).any (fun w => w.templateUri == uri) = true :=
    List.any_eq_true.mpr ⟨w, hw, hbeq⟩
  rw [Pizzaz.isRegisteredResource] at h
  rw [h] at hany
  exact Bool.false_ne_true hany

/-- CallTool of server.ts on a registered tool with arguments the zod parser
accepts returns the success result echoing the parsed topping. -/
theorem Pizzaz.callTool_success (assets : String → String) (w : Pizzaz.Widget)
    (hw : w ∈ Pizzaz.widgets assets) (args : Args) (topping : String)
    (hargs : toolInputParse args = some topping) :
    Pizzaz.callToolHandler assets w.id (some args) =
      Except.ok
        { content := [{ type := "text", text := w.responseText }],
          structuredContent := some [("pizzaTopping", ArgVal.str topping)],
          meta := Pizzaz.widgetMeta w ++
            [("openai/widget", MetaVal.widgetRefUri w.templateUri)] } := by
  simp [Pizzaz.callToolHandler, Pizzaz.widgetsById_of_mem assets w hw,
    Option.getD_some, hargs]

/-- CallTool of the part_001 variant on a registered tool with arguments the
zod parser accepts returns its success result, which carries no
structuredContent. -/
theorem Part1.callToolVariant_success (assets : String → String) (v : Part1.Widget)
    (hv : v ∈ Part1.widgets assets) (args : Args) (topping : String)
    (hargs : toolInputParse args = some topping) :
    Part1.callToolHandler assets v.id (some args) =
      Except.ok
        { content :=
            [ { type := "text",
                text := "Rendered " ++ v.title ++ " with topping " ++ topping },
              { type := "text/html", text := v.html } ],
          structuredContent := none,
          meta := Part1.makeMeta v } := by
  simp [Part1.callToolHandler, Part1.byId_of_mem assets v hv,
    Option.getD_some, hargs]

/-- ReadResource of server.ts on a registered template URI returns that
widget markup. -/
theorem Pizzaz.readResource_success (assets : String → String) (w : Pizzaz.Widget)
    (hw : w ∈ Pizzaz.widgets assets) :
    Pizzaz.readResourceHandler assets w.templateUri =
      Except.ok
        [{ uri := w.templateUri, mimeType := "text/html+skybridge",
           text := w.html, meta := Pizzaz.widgetMeta w }] := by
  simp [Pizzaz.readResourceHandler, Pizzaz.widgetsByUri_of_mem assets w hw]

/-- Claim C1 counterexample: CallTool of the part_001 variant on the
registered tool pizza-map with valid arguments succeeds, but its result
object carries no structuredContent at all, so the envelope does not echo the
pizzaTopping argument there. -/
theorem claim_c1_counterexample :
    (Part1.callToolHandler assets0 "pizza-map"
        (some [("pizzaTopping", ArgVal.str "pepperoni")])).toOption.map
      (fun env => env.structuredContent) = some none := by decide

/-- Claim C1 (amended): for every registered tool and every arguments object
the validator accepts, CallTool of pizzaz_server_node/src/server.ts returns a
success envelope of shape content, structuredContent, metadata, whose
metadata names the tool through its output-template URI and whose
structuredContent echoes the pizzaTopping argument; the part_001 variant
returns a success envelope without structuredContent, echoing the topping
inside its text content instead. -/
theorem claim_c1 (assets : String → String) (w : Pizzaz.Widget)
    (hw : w ∈ Pizzaz.widgets assets) (v : Part1.Widget)
    (hv : v ∈ Part1.widgets assets) (args : Args) (topping : String)
    (hargs : toolInputParse args = some topping) :
    (Pizzaz.callToolHandler assets w.id (some args) =
      Except.ok
        { content := [{ type := "text", text := w.responseText }],
          structuredContent := some [("pizzaTopping", ArgVal.str topping)],
          meta := Pizzaz.widgetMeta w ++
            [("openai/widget", MetaVal.widgetRefUri w.templateUri)] }) ∧
    (List.lookup "openai/outputTemplate" (Pizzaz.widgetMeta w) =
      some (MetaVal.str w.templateUri)) ∧
    (Part1.callToolHandler assets v.id (some args) =
      Except.ok
        { content :=
            [ { type := "text",
                text := "Rendered " ++ v.title ++ " with topping " ++ topping },
              { type := "text/html", text := v.html } ],
          structuredContent := none,
          meta := Part1.makeMeta v }) :=
  ⟨Pizzaz.callTool_success assets w hw args topping hargs, rfl,
   Part1.callToolVariant_success assets v hv args topping hargs⟩

/-- Claim C1 witness: the amended theorem at the pizza-map tool of both
variants with topping pepperoni. -/
theorem claim_c1_witness :
    wmap0 ∈ Pizzaz.widgets assets0 ∧ vmap0 ∈ Part1.widgets assets0 ∧
    toolInputParse [("pizzaTopping", ArgVal.str "pepperoni")] = some "pepperoni" ∧
    Pizzaz.callToolHandler assets0 "pizza-map"
        (some [("pizzaTopping", ArgVal.str "pepperoni")]) =
      Except.ok
        { content := [{ type := "text", text := "Rendered a pizza map!" }],
          structuredContent := some [("pizzaTopping", ArgVal.str "pepperoni")],
          meta := Pizzaz.widgetMeta wmap0 ++
            [("openai/widget", MetaVal.widgetRefUri "ui://widget/pizza-map.html")] } := by
  refine ⟨by decide, by decide, rfl, ?_⟩
  exact (claim_c1 assets0 wmap0 (by decide) vmap0 (by decide)
    [("pizzaTopping", ArgVal.str "pepperoni")] "pepperoni" rfl).1

/-- Claim C2 (code bug): the heartbeat interval of handleSseRequest is
cleared by the finally block as soon as await server.connect resolves, which
is at the SSE handshake and not at channel close, so a push channel held open
for 30 time units, twice the heartbeat period, emits no heartbeat frame at
all; had the interval survived until the close of the channel it would have
fired at times 15 and 30. The part_001 variant creates no heartbeat interval
in the first place. -/
theorem claim_c2 :
    Pizzaz.heartbeatPeriod < 30 ∧
    Pizzaz.heartbeatFrames (Pizzaz.sseFrames "sessA" 30) = [] ∧
    Pizzaz.heartbeatFireTimes 30 30 = [15, 30] := by decide

/-- Claim C3 counterexample: the part_001 variant registers no
transport.onclose callback, so after the push channel of session sessA closes
the session is still in the registry and a pull request naming sessA is
dispatched rather than rejected with 404. -/
theorem claim_c3_counterexample :
    (Part1.applyEvent assets0 (openSession reg0 "sessA")
        (Pizzaz.Event.closeChannel "sessA")) "sessA" = some SessionRecord.mk ∧
    (Part1.handlePostMessage assets0
        (Part1.applyEvent assets0 (openSession reg0 "sessA")
          (Pizzaz.Event.closeChannel "sessA"))
        (some "sessA") McpRequest.listTools).1 =
      HttpResult.dispatched (Part1.dispatch assets0 McpRequest.listTools) := by
  exact ⟨rfl, rfl⟩

/-- Claim C3 (amended): in pizzaz_server_node/src/server.ts the
transport.onclose callback synchronously deletes the session from the
registry, so after a close, along any subsequent event sequence that does not
re-open that unique id, the id stays out of the registry and every pull
request naming it is answered 404; the part_001 variant registers no close
callback and retains the session, as the counterexample shows. -/
theorem claim_c3 (assets : String → String) (r : Registry) (sid : String)
    (evs : List Pizzaz.Event) (body : McpRequest)
    (hfresh : Pizzaz.Event.openChannel sid ∉ evs) :
    Pizzaz.applyEvents assets (closeSession r sid) evs sid = none ∧
    (Pizzaz.handlePostMessage assets
        (Pizzaz.applyEvents assets (closeSession r sid) evs) (some sid) body).1 =
      HttpResult.notFound404 "Unknown session" := by
  have hnone : Pizzaz.applyEvents assets (closeSession r sid) evs sid = none := by
    apply Pizzaz.applyEvents_lookup_none
    · simp [closeSession]
    · exact hfresh
  exact ⟨hnone, by simp [Pizzaz.handlePostMessage, hnone]⟩

/-- Claim C3 witness: session sessA of server.ts is closed, another session
opens and serves a pull afterwards, and a pull naming sessA still gets 404. -/
theorem claim_c3_witness :
    Pizzaz.Event.openChannel "sessA" ∉
      [Pizzaz.Event.openChannel "sessB",
       Pizzaz.Event.post "sessB" McpRequest.listTools] ∧
    (Pizzaz.applyEvents assets0 (closeSession reg1 "sessA")
        [Pizzaz.Event.openChannel "sessB",
         Pizzaz.Event.post "sessB" McpRequest.listTools] "sessA" = none ∧
     (Pizzaz.handlePostMessage assets0
        (Pizzaz.applyEvents assets0 (closeSession reg1 "sessA")
          [Pizzaz.Event.openChannel "sessB",
           Pizzaz.Event.post "sessB" McpRequest.listTools])
        (some "sessA") McpRequest.listTools).1 =
      HttpResult.notFound404 "Unknown session") :=
  ⟨by decide,
   claim_c3 assets0 reg1 "sessA"
     [Pizzaz.Event.openChannel "sessB",
      Pizzaz.Event.post "sessB" McpRequest.listTools]
     McpRequest.listTools (by decide)⟩

/-- Claim C4 counterexample: an arguments object holding the required string
pizzaTopping plus one additional property violates the declared input schema,
whose additionalProperties is false, yet CallTool of server.ts succeeds,
because the zod parser strips unknown keys instead of rejecting them. -/
theorem claim_c4_counterexample :
    Pizzaz.toolInputSchemaAccepts
        [("pizzaTopping", ArgVal.str "pepperoni"), ("extraKey", ArgVal.str "x")] = false ∧
    Pizzaz.callToolHandler assets0 "pizza-map"
        (some [("pizzaTopping", ArgVal.str "pepperoni"), ("extraKey", ArgVal.str "x")]) =
      Except.ok
        { content := [{ type := "text", text := "Rendered a pizza map!" }],
          structuredContent := some [("pizzaTopping", ArgVal.str "pepperoni")],
          meta := Pizzaz.widgetMeta wmap0 ++
            [("openai/widget", MetaVal.widgetRefUri "ui://widget/pizza-map.html")] } := by
  exact ⟨rfl, rfl⟩

/-- Claim C4 (amended): CallTool validates arguments with the zod parser,
which demands a string pizzaTopping but, unlike the declared schema, accepts
and strips additional properties; for every arguments object without a string
pizzaTopping, CallTool on a registered tool raises the ZodError, which the
dispatcher converts to a structured validation error, and no tool result is
produced. -/
theorem claim_c4 (assets : String → String) (w : Pizzaz.Widget)
    (hw : w ∈ Pizzaz.widgets assets) (args : Args)
    (hbad : toolInputParse args = none) :
    Pizzaz.callToolHandler assets w.id (some args) =
      Except.error HandlerError.validation ∧
    Pizzaz.dispatch assets (McpRequest.callTool w.id (some args)) =
      Pizzaz.DispatchOutcome.errorEnvelope HandlerError.validation := by
  have h1 : Pizzaz.callToolHandler assets w.id (some args) =
      Except.error HandlerError.validation := by
    simp [Pizzaz.callToolHandler, Pizzaz.widgetsById_of_mem assets w hw,
      Option.getD_some, hbad]
  exact ⟨h1, by simp [Pizzaz.dispatch, Pizzaz.runRequest, h1, Except.map]⟩

/-- Claim C4 witness: the amended theorem at the pizza-map tool with a
non-string pizzaTopping value. -/
theorem claim_c4_witness :
    wmap0 ∈ Pizzaz.widgets assets0 ∧
    toolInputParse [("pizzaTopping", ArgVal.nonString)] = none ∧
    (Pizzaz.callToolHandler assets0 "pizza-map"
        (some [("pizzaTopping", ArgVal.nonString)]) =
      Except.error HandlerError.validation ∧
     Pizzaz.dispatch assets0
        (McpRequest.callTool "pizza-map" (some [("pizzaTopping", ArgVal.nonString)])) =
      Pizzaz.DispatchOutcome.errorEnvelope HandlerError.validation) :=
  ⟨by decide, rfl,
   claim_c4 assets0 wmap0 (by decide) [("pizzaTopping", ArgVal.nonString)] rfl⟩

/-- Claim C5: a handler exception raised while serving CallTool or
ReadResource is caught at the dispatcher boundary and delivered to the caller
as a structured error envelope; the pull request returns the sessions map
untouched and the session that served it is still registered afterwards, so a
handler-level failure never closes a session. -/
theorem claim_c5 (assets : String → String) (r : Registry) (sid : String)
    (body : McpRequest) (e : HandlerError)
    (hopen : r sid = some SessionRecord.mk)
    (herr : Pizzaz.runRequest assets body = Except.error e) :
    (Pizzaz.handlePostMessage assets r (some sid) body).1 =
      HttpResult.dispatched (Pizzaz.DispatchOutcome.errorEnvelope e) ∧
    (Pizzaz.handlePostMessage assets r (some sid) body).2 = r ∧
    (Pizzaz.handlePostMessage assets r (some sid) body).2 sid =
      some SessionRecord.mk := by
  refine ⟨?_, Pizzaz.handlePostMessage_registry assets r (some sid) body, ?_⟩
  · simp [Pizzaz.handlePostMessage, hopen, Pizzaz.dispatch, herr]
  · rw [Pizzaz.handlePostMessage_registry]
    exact hopen

/-- Claim C5 witness: session sessA serves a CallTool naming an unregistered
tool; the thrown unknown-tool error comes back as a structured envelope and
sessA is still registered. -/
theorem claim_c5_witness :
    reg1 "sessA" = some SessionRecord.mk ∧
    Pizzaz.runRequest assets0 (McpRequest.callTool "bogus" none) =
      Except.error (HandlerError.unknownTool "bogus") ∧
    ((Pizzaz.handlePostMessage assets0 reg1 (some "sessA")
        (McpRequest.callTool "bogus" none)).1 =
      HttpResult.dispatched
        (Pizzaz.DispatchOutcome.errorEnvelope (HandlerError.unknownTool "bogus")) ∧
     (Pizzaz.handlePostMessage assets0 reg1 (some "sessA")
        (McpRequest.callTool "bogus" none)).2 = reg1 ∧
     (Pizzaz.handlePostMessage assets0 reg1 (some "sessA")
        (McpRequest.callTool "bogus" none)).2 "sessA" = some SessionRecord.mk) :=
  ⟨rfl, rfl,
   claim_c5 assets0 reg1 "sessA" (McpRequest.callTool "bogus" none)
     (HandlerError.unknownTool "bogus") rfl rfl⟩

/-- Claim C6 counterexample: the part_001 ReadResource handler matches by
file-name suffix, so the URI https://attacker.example/pizzaz.html, which is
not among the registered resource URIs, still yields the pizza-map widget
markup instead of failing NotFound. -/
theorem claim_c6_counterexample :
    (Part1.resourceUris assets0).contains "https://attacker.example/pizzaz.html" = false ∧
    Part1.readResourceHandler assets0 "https://attacker.example/pizzaz.html" =
      Except.ok
        [{ uri := "ui://widget/pizzaz.html", mimeType := "text/html",
           text := "", meta := Part1.makeMeta vmap0 }] := by
  exact ⟨rfl, rfl⟩

/-- Claim C6 (amended): ReadResource of pizzaz_server_node/src/server.ts does
exact URI lookup: every registered template URI yields exactly that widget
markup and every unregistered URI fails with the unknown-resource error; the
part_001 variant instead matches by file-name suffix, so an unregistered URI
ending in a registered widget file name yields that widget content, as the
counterexample shows. -/
theorem claim_c6 (assets : String → String) (uri : String)
    (hnot : Pizzaz.isRegisteredResource assets uri = false)
    (w : Pizzaz.Widget) (hw : w ∈ Pizzaz.widgets assets) :
    Pizzaz.readResourceHandler assets uri =
      Except.error (HandlerError.unknownResource uri) ∧
    Pizzaz.readResourceHandler assets w.templateUri =
      Except.ok
        [{ uri := w.templateUri, mimeType := "text/html+skybridge",
           text := w.html, meta := Pizzaz.widgetMeta w }] := by
  refine ⟨?_, Pizzaz.readResource_success assets w hw⟩
  simp [Pizzaz.readResourceHandler, Pizzaz.widgetsByUri_eq_none assets uri hnot]

/-- Claim C6 witness: the amended theorem at the unregistered URI
ui://widget/unknown.html and the registered pizza-map template URI. -/
theorem claim_c6_witness :
    Pizzaz.isRegisteredResource assets0 "ui://widget/unknown.html" = false ∧
    wmap0 ∈ Pizzaz.widgets assets0 ∧
    (Pizzaz.readResourceHandler assets0 "ui://widget/unknown.html" =
      Except.error (HandlerError.unknownResource "ui://widget/unknown.html") ∧
     Pizzaz.readResourceHandler assets0 "ui://widget/pizza-map.html" =
      Except.ok
        [{ uri := "ui://widget/pizza-map.html", mimeType := "text/html+skybridge",
           text := "", meta := Pizzaz.widgetMeta wmap0 }]) :=
  ⟨by decide, by decide,
   claim_c6 assets0 "ui://widget/unknown.html" (by decide) wmap0 (by decide)⟩

/-- Claim C7: ReadResource is idempotent: a pull request carrying ReadResource
returns the sessions map unchanged, a second identical pull on a live session
returns the identical response, and for a registered URI both responses carry
byte-identical markup, the widget HTML loaded once at startup. -/
theorem claim_c7 (assets : String → String) (r : Registry) (sid uri : String)
    (w : Pizzaz.Widget) (hopen : r sid = some SessionRecord.mk)
    (hw : Pizzaz.widgetsByUri assets uri = some w) :
    (Pizzaz.handlePostMessage assets r (some sid) (McpRequest.readResource uri)).2 = r ∧
    (Pizzaz.handlePostMessage assets
        (Pizzaz.handlePostMessage assets r (some sid) (McpRequest.readResource uri)).2
        (some sid) (McpRequest.readResource uri)).1 =
      (Pizzaz.handlePostMessage assets r (some sid) (McpRequest.readResource uri)).1 ∧
    (Pizzaz.handlePostMessage assets r (some sid) (McpRequest.readResource uri)).1 =
      HttpResult.dispatched (Pizzaz.DispatchOutcome.result
        (Pizzaz.DispatchPayload.resourceResult
          [{ uri := w.templateUri, mimeType := "text/html+skybridge",
             text := w.html, meta := Pizzaz.widgetMeta w }])) := by
  have hreg := Pizzaz.handlePostMessage_registry assets r (some sid)
    (McpRequest.readResource uri)
  refine ⟨hreg, by rw [hreg], ?_⟩
  simp [Pizzaz.handlePostMessage, hopen, Pizzaz.dispatch, Pizzaz.runRequest,
    Pizzaz.readResourceHandler, hw, Except.map]

/-- Claim C7 witness: two ReadResource pulls of the pizza-map template URI on
session sessA return the identical markup response and leave the sessions map
unchanged. -/
theorem claim_c7_witness :
    reg1 "sessA" = some SessionRecord.mk ∧
    Pizzaz.widgetsByUri assets0 "ui://widget/pizza-map.html" = some wmap0 ∧
    ((Pizzaz.handlePostMessage assets0 reg1 (some "sessA")
        (McpRequest.readResource "ui://widget/pizza-map.html")).2 = reg1 ∧
     (Pizzaz.handlePostMessage assets0
        (Pizzaz.handlePostMessage assets0 reg1 (some "sessA")
          (McpRequest.readResource "ui://widget/pizza-map.html")).2
        (some "sessA") (McpRequest.readResource "ui://widget/pizza-map.html")).1 =
      (Pizzaz.handlePostMessage assets0 reg1 (some "sessA")
        (McpRequest.readResource "ui://widget/pizza-map.html")).1 ∧
     (Pizzaz.handlePostMessage assets0 reg1 (some "sessA")
        (McpRequest.readResource "ui://widget/pizza-map.html")).1 =
      HttpResult.dispatched (Pizzaz.DispatchOutcome.result
        (Pizzaz.DispatchPayload.resourceResult
          [{ uri := "ui://widget/pizza-map.html", mimeType := "text/html+skybridge",
             text := "", meta := Pizzaz.widgetMeta wmap0 }]))) :=
  ⟨rfl, by decide,
   claim_c7 assets0 reg1 "sessA" "ui://widget/pizza-map.html" wmap0 rfl (by decide)⟩

/-- Claim C8: a pull request without the sessionId query parameter is
rejected with 400 Missing sessionId before the sessions map is consulted, and
the map is returned untouched, whatever it holds. -/
theorem claim_c8 (assets : String → String) (r : Registry) (body : McpRequest) :
    Pizzaz.handlePostMessage assets r none body =
      (HttpResult.badRequest400 "Missing sessionId", r) := rfl

/-- Claim C9: a pull request naming a session id absent from the sessions map
is answered 404 Unknown session and the map is returned unchanged, with no
entry added, removed or modified. -/
theorem claim_c9 (assets : String → String) (r : Registry) (sid : String)
    (body : McpRequest) (h : r sid = none) :
    Pizzaz.handlePostMessage assets r (some sid) body =
      (HttpResult.notFound404 "Unknown session", r) := by
  simp [Pizzaz.handlePostMessage, h]

/-- Claim C9 witness: a pull naming the unknown id ghost against the
single-session map gets 404 and the same map back. -/
theorem claim_c9_witness :
    reg1 "ghost" = none ∧
    Pizzaz.handlePostMessage assets0 reg1 (some "ghost") McpRequest.listTools =
      (HttpResult.notFound404 "Unknown session", reg1) :=
  ⟨rfl, claim_c9 assets0 reg1 "ghost" McpRequest.listTools rfl⟩

/-- Claim C10: CallTool with the arguments field entirely absent defaults it
to the empty object, so on a registered tool it behaves exactly as with the
empty object and returns the structured validation error, since pizzaTopping
is required, rather than an uncaught failure. -/
theorem claim_c10 (assets : String → String) (w : Pizzaz.Widget)
    (hw : w ∈ Pizzaz.widgets assets) :
    Pizzaz.callToolHandler assets w.id none =
      Pizzaz.callToolHandler assets w.id (some []) ∧
    Pizzaz.callToolHandler assets w.id none = Except.error HandlerError.validation := by
  have h1 : Pizzaz.callToolHandler assets w.id none =
      Except.error HandlerError.validation := by
    simp [Pizzaz.callToolHandler, Pizzaz.widgetsById_of_mem assets w hw,
      toolInputParse, argLookup]
  have h2 : Pizzaz.callToolHandler assets w.id (some []) =
      Except.error HandlerError.validation := by
    simp [Pizzaz.callToolHandler, Pizzaz.widgetsById_of_mem assets w hw,
      toolInputParse, argLookup]
  exact ⟨h1.trans h2.symm, h1⟩

/-- Claim C10 witness: CallTool pizza-map with absent arguments equals the
empty-object call and yields the validation error. -/
theorem claim_c10_witness :
    wmap0 ∈ Pizzaz.widgets assets0 ∧
    (Pizzaz.callToolHandler assets0 "pizza-map" none =
      Pizzaz.callToolHandler assets0 "pizza-map" (some []) ∧
     Pizzaz.callToolHandler assets0 "pizza-map" none =
      Except.error HandlerError.validation) :=
  ⟨by decide, claim_c10 assets0 wmap0 (by decide)⟩
